import Mathlib

/-!
Verification of the Logistics Route & Carbon Tracker (src/Streamlit_app.py).

Numbers are modelled as rationals (ℚ); Python `int(x)` is truncation toward
zero, Python `round` is round-half-to-even, Python `x // y` is flooring
division and `x % y` is the matching remainder.  Fallible functions return
`Except String` mirroring `raise ValueError(msg)`.
-/

namespace Logistics

/-- Python `round(q)`: round half to even (banker's rounding). -/
def pyround (q : ℚ) : ℤ :=
  if q - (⌊q⌋ : ℚ) < 1/2 then ⌊q⌋
  else if 1/2 < q - (⌊q⌋ : ℚ) then ⌊q⌋ + 1
  else if ⌊q⌋ % 2 = 0 then ⌊q⌋ else ⌊q⌋ + 1

/-- Python `int(q)`: truncation toward zero. -/
def pytrunc (q : ℚ) : ℤ :=
  if q < 0 then ⌈q⌉ else ⌊q⌋

/-- `CO2_PER_KM = 150` (grams CO₂ per kilometre). -/
def CO2_PER_KM : ℚ := 150

/-- `COST_PER_KM = 8` (₹ per kilometre). -/
def COST_PER_KM : ℚ := 8

/-- `HEADERS = {"User-Agent": "streamlit-carbon-demo"}`. -/
def HEADERS : List (String × String) := [("User-Agent", "streamlit-carbon-demo")]

/-- `def km(meters): return round(meters / 1000, 2)` —
Python `round(x, 2)` rounds to two decimal places, half to even. -/
def km (meters : ℚ) : ℚ :=
  (pyround (meters / 1000 * 100) : ℚ) / 100

/-- `h = int(seconds // 3600)` in `hmin`. -/
def hminH (seconds : ℚ) : ℤ := ⌊seconds / 3600⌋

/-- `m = int(round((seconds % 3600) / 60))` in `hmin`;
`seconds % 3600 = seconds - 3600 * (seconds // 3600)`. -/
def hminM (seconds : ℚ) : ℤ :=
  pyround ((seconds - 3600 * (⌊seconds / 3600⌋ : ℚ)) / 60)

/-- `def hmin(seconds): ... return f"{h} h {m} min"`. -/
def hmin (seconds : ℚ) : String :=
  toString (hminH seconds) ++ " h " ++ toString (hminM seconds) ++ " min"

/-- `def calc_metrics(distance_km): co2 = int(distance_km * CO2_PER_KM);
cost = int(distance_km * COST_PER_KM); return co2, cost`. -/
def calc_metrics (distance_km : ℚ) : ℤ × ℤ :=
  (pytrunc (distance_km * CO2_PER_KM), pytrunc (distance_km * COST_PER_KM))

/- ------------------------------------------------------------------
Basic lemmas about `pyround`.
------------------------------------------------------------------ -/

lemma pyround_eq_floor_or_ceil (q : ℚ) :
    pyround q = ⌊q⌋ ∨ pyround q = ⌊q⌋ + 1 := by
  unfold pyround
  split
  · exact Or.inl rfl
  · split
    · exact Or.inr rfl
    · split
      · exact Or.inl rfl
      · exact Or.inr rfl

lemma pyround_le (q : ℚ) : (pyround q : ℚ) ≤ q + 1/2 := by
  have hfl : (⌊q⌋ : ℚ) ≤ q := Int.floor_le q
  have hfr : q - (⌊q⌋ : ℚ) < 1 := by
    have := Int.lt_floor_add_one q
    linarith
  unfold pyround
  split
  · linarith
  · rename_i h1
    split
    · rename_i h2
      push_cast
      linarith
    · rename_i h2
      have : q - (⌊q⌋ : ℚ) = 1/2 := le_antisymm (not_lt.mp h2) (not_lt.mp h1)
      split
      · linarith
      · push_cast; linarith

lemma le_pyround (q : ℚ) : q - 1/2 ≤ (pyround q : ℚ) := by
  have hfl : (⌊q⌋ : ℚ) ≤ q := Int.floor_le q
  have hfr : q - (⌊q⌋ : ℚ) < 1 := by
    have := Int.lt_floor_add_one q
    linarith
  unfold pyround
  split
  · rename_i h1
    linarith
  · rename_i h1
    split
    · rename_i h2
      push_cast
      linarith
    · rename_i h2
      have : q - (⌊q⌋ : ℚ) = 1/2 := le_antisymm (not_lt.mp h2) (not_lt.mp h1)
      split
      · linarith
      · push_cast; linarith

lemma abs_pyround_sub_le (q : ℚ) : |(pyround q : ℚ) - q| ≤ 1/2 := by
  have h1 := pyround_le q
  have h2 := le_pyround q
  rw [abs_le]
  constructor <;> linarith

lemma pyround_nonneg {q : ℚ} (hq : 0 ≤ q) : 0 ≤ pyround q := by
  rcases pyround_eq_floor_or_ceil q with h | h <;> rw [h]
  · exact Int.floor_nonneg.mpr hq
  · have : (0 : ℤ) ≤ ⌊q⌋ := Int.floor_nonneg.mpr hq
    omega

lemma pytrunc_eq_floor {q : ℚ} (hq : 0 ≤ q) : pytrunc q = ⌊q⌋ := by
  unfold pytrunc
  rw [if_neg (not_lt.mpr hq)]

/- ------------------------------------------------------------------
Evaluation of the metric functions at the concrete inputs used by the
spec's examples (kernel reduction is blocked on rational `⌊·⌋`, so these
are established with `norm_num`).
------------------------------------------------------------------ -/

lemma hmin_0 : hmin 0 = "0 h 0 min" := by
  have h1 : hminH 0 = 0 := by unfold hminH; norm_num
  have h2 : hminM 0 = 0 := by unfold hminM pyround; norm_num
  unfold hmin; rw [h1, h2]; rfl

lemma hmin_3600 : hmin 3600 = "1 h 0 min" := by
  have h1 : hminH 3600 = 1 := by unfold hminH; norm_num
  have h2 : hminM 3600 = 0 := by unfold hminM pyround; norm_num
  unfold hmin; rw [h1, h2]; rfl

lemma hmin_90 : hmin 90 = "0 h 2 min" := by
  have h1 : hminH 90 = 0 := by unfold hminH; norm_num
  have h2 : hminM 90 = 2 := by unfold hminM pyround; norm_num
  unfold hmin; rw [h1, h2]; rfl

lemma hminM_3599 : hminM 3599 = 60 := by
  unfold hminM pyround; norm_num

lemma hmin_3599 : hmin 3599 = "0 h 60 min" := by
  have h1 : hminH 3599 = 0 := by unfold hminH; norm_num
  unfold hmin; rw [h1, hminM_3599]; rfl

lemma hmin_1500 : hmin 1500 = "0 h 25 min" := by
  have h1 : hminH 1500 = 0 := by unfold hminH; norm_num
  have h2 : hminM 1500 = 25 := by unfold hminM pyround; norm_num
  unfold hmin; rw [h1, h2]; rfl

lemma hmin_1800 : hmin 1800 = "0 h 30 min" := by
  have h1 : hminH 1800 = 0 := by unfold hminH; norm_num
  have h2 : hminM 1800 = 30 := by unfold hminM pyround; norm_num
  unfold hmin; rw [h1, h2]; rfl

lemma calc_metrics_10 : calc_metrics 10 = (1500, 80) := by
  unfold calc_metrics pytrunc CO2_PER_KM COST_PER_KM; norm_num

lemma calc_metrics_0 : calc_metrics 0 = (0, 0) := by
  unfold calc_metrics pytrunc CO2_PER_KM COST_PER_KM; norm_num

lemma calc_metrics_12 : calc_metrics 12 = (1800, 96) := by
  unfold calc_metrics pytrunc CO2_PER_KM COST_PER_KM; norm_num

lemma calc_metrics_15 : calc_metrics 15 = (2250, 120) := by
  unfold calc_metrics pytrunc CO2_PER_KM COST_PER_KM; norm_num

lemma km_12000 : km 12000 = 12 := by
  unfold km pyround; norm_num

lemma km_15000 : km 15000 = 15 := by
  unfold km pyround; norm_num

/- ------------------------------------------------------------------
HTTP-layer model.  A `GeoResult` is one element of the Nominatim JSON
result list, already parsed (`float(js[0]["lat"])`, `float(js[0]["lon"])`).
A `Route` is one element of the OSRM `routes` list.  An outbound HTTP GET
is recorded as the `HttpRequest` the code constructs.
------------------------------------------------------------------ -/

structure GeoResult where
  lat : ℚ
  lon : ℚ
  deriving DecidableEq

structure Route where
  distance : ℚ
  duration : ℚ
  geometry : List (ℚ × ℚ)
  deriving DecidableEq

structure HttpRequest where
  url : String
  headers : List (String × String)
  timeoutSecs : ℚ
  deriving DecidableEq

/-- The URL built by `geocode`:
`"https://nominatim.openstreetmap.org/search?format=json&q=" +
requests.utils.quote(place) + "&limit=1"`; `quote` abstracts
`requests.utils.quote`. -/
def geocode_url (quote : String → String) (place : String) : String :=
  "https://nominatim.openstreetmap.org/search?format=json&q="
    ++ quote place ++ "&limit=1"

/-- The HTTP GET issued by `geocode`:
`requests.get(url, headers=HEADERS, timeout=15)`. -/
def geocode_request (quote : String → String) (place : String) : HttpRequest :=
  { url := geocode_url quote place, headers := HEADERS, timeoutSecs := 15 }

/-- The result of `geocode(place)` as a function of the parsed JSON response
list `js`: `if not js: raise ValueError(f"Place not found: {place}")`;
otherwise `return float(js[0]["lat"]), float(js[0]["lon"])`. -/
def geocode (place : String) (js : List GeoResult) : Except String (ℚ × ℚ) :=
  match js with
  | [] => .error ("Place not found: " ++ place)
  | r :: _ => .ok (r.lat, r.lon)

/-- The coordinate string built by `fetch_routes`:
`coords = f"{start[1]},{start[0]};{end[1]},{end[0]}"` where `render`
abstracts Python float formatting (`stop` stands for the source's `end`). -/
def fetch_routes_coords (render : ℚ → String) (start stop : ℚ × ℚ) : String :=
  render start.2 ++ "," ++ render start.1 ++ ";"
    ++ render stop.2 ++ "," ++ render stop.1

/-- The HTTP GET issued by `fetch_routes`:
`requests.get(url, timeout=20)` — note: no `headers=` argument. -/
def fetch_routes_request (render : ℚ → String) (start stop : ℚ × ℚ) :
    HttpRequest :=
  { url := "https://router.project-osrm.org/route/v1/driving/"
      ++ fetch_routes_coords render start stop
      ++ "?alternatives=true&overview=full&geometries=geojson"
    headers := []
    timeoutSecs := 20 }

/-- The result of `fetch_routes` as a function of `js.get("routes")`
(`none` when the key is absent): `if not js.get("routes"): raise
ValueError("No routes found from OSRM")`; otherwise
`return routes[0], (routes[1] if len(routes) > 1 else routes[0])`. -/
def fetch_routes (routesField : Option (List Route)) :
    Except String (Route × Route) :=
  match routesField with
  | none => .error "No routes found from OSRM"
  | some [] => .error "No routes found from OSRM"
  | some (r0 :: rest) =>
      .ok (r0, match rest with
               | [] => r0
               | r1 :: _ => r1)

/- ------------------------------------------------------------------
UI layer: the metric values computed on success (lines 99-147 of the
source) and the try/except control flow around the pipeline.
------------------------------------------------------------------ -/

structure Display where
  startCoord : ℚ × ℚ
  endCoord : ℚ × ℚ
  bestKm : ℚ
  altKm : ℚ
  bestDur : String
  altDur : String
  bestCo2 : ℤ
  bestCost : ℤ
  altCo2 : ℤ
  altCost : ℤ
  co2Saved : ℤ
  costSaved : ℤ
  deriving DecidableEq

/-- The metric block of the UI on success: `best_km = km(best["distance"])`,
`best_co2, best_cost = calc_metrics(best_km)` (same for `alt`), durations
shown via `hmin`, and the savings `best_co2-alt_co2`, `best_cost-alt_cost`
(old minus optimized). -/
def mkDisplay (start stop : ℚ × ℚ) (best alt : Route) : Display :=
  { startCoord := start
    endCoord := stop
    bestKm := km best.distance
    altKm := km alt.distance
    bestDur := hmin best.duration
    altDur := hmin alt.duration
    bestCo2 := (calc_metrics (km best.distance)).1
    bestCost := (calc_metrics (km best.distance)).2
    altCo2 := (calc_metrics (km alt.distance)).1
    altCost := (calc_metrics (km alt.distance)).2
    co2Saved := (calc_metrics (km best.distance)).1
                  - (calc_metrics (km alt.distance)).1
    costSaved := (calc_metrics (km best.distance)).2
                  - (calc_metrics (km alt.distance)).2 }

/-- The body of the `try:` block, as a function of the two geocoding
responses and the routing response: `start = geocode(origin)`,
`end = geocode(destination)`, `best, alt = fetch_routes(start, end)`,
then the metric block.  A raised `ValueError` is an `Except.error`. -/
def runPipeline (origin dest : String) (respO respD : List GeoResult)
    (routesField : Option (List Route)) : Except String Display := do
  let start ← geocode origin respO
  let stop ← geocode dest respD
  let (best, alt) ← fetch_routes routesField
  pure (mkDisplay start stop best alt)

/-- What the user sees: the success view, or the error banner
(`except Exception as e: st.error(str(e))`). -/
inductive UIOut where
  | success (d : Display)
  | errorBanner (msg : String)
  deriving DecidableEq

/-- The try/except wrapper: any failure is rendered as `st.error(str(e))`;
success displays the map and metric block. -/
def renderUI (result : Except String Display) : UIOut :=
  match result with
  | .ok d => .success d
  | .error e => .errorBanner e

/- ------------------------------------------------------------------
Claim theorems.
------------------------------------------------------------------ -/

/-- C1: for every non-negative `distance_km`, `calc_metrics` returns
`(⌊distance_km * 150⌋, ⌊distance_km * 8⌋)` (truncating conversion agrees
with floor on non-negative products); and `calc_metrics 10 = (1500, 80)`,
`calc_metrics 0 = (0, 0)`. -/
theorem C1_calc_metrics_floor :
    (∀ d : ℚ, 0 ≤ d → calc_metrics d = (⌊d * 150⌋, ⌊d * 8⌋))
    ∧ calc_metrics 10 = (1500, 80) ∧ calc_metrics 0 = (0, 0) := by
  refine ⟨fun d hd => ?_, calc_metrics_10, calc_metrics_0⟩
  unfold calc_metrics CO2_PER_KM COST_PER_KM
  rw [pytrunc_eq_floor (by positivity), pytrunc_eq_floor (by positivity)]

/-- Witness for C1 at `d = 10`. -/
theorem C1_witness :
    (0 : ℚ) ≤ 10 ∧ calc_metrics 10 = (⌊(10 : ℚ) * 150⌋, ⌊(10 : ℚ) * 8⌋) :=
  ⟨by norm_num, C1_calc_metrics_floor.1 10 (by norm_num)⟩

/-- C2: `hmin` returns the string `"H h M min"` with `H = ⌊seconds/3600⌋`
and `M = round((seconds mod 3600)/60)` to the nearest integer (the rounded
value differs from the exact quotient by at most 1/2); when `M = 60` the
string is `"H h 60 min"` with no carry into `H + 1`; and the three spec
examples hold. -/
theorem C2_hmin_format :
    (∀ s : ℚ,
        hmin s = toString (⌊s / 3600⌋) ++ " h "
          ++ toString (pyround ((s - 3600 * (⌊s / 3600⌋ : ℚ)) / 60)) ++ " min")
    ∧ (∀ s : ℚ, |((pyround s : ℚ)) - s| ≤ 1/2)
    ∧ (∀ s : ℚ, hminM s = 60 → hmin s = toString (⌊s / 3600⌋) ++ " h 60 min")
    ∧ hmin 3599 = "0 h 60 min"
    ∧ hmin 0 = "0 h 0 min" ∧ hmin 3600 = "1 h 0 min" ∧ hmin 90 = "0 h 2 min" := by
  refine ⟨fun s => rfl, abs_pyround_sub_le, fun s h60 => ?_,
    hmin_3599, hmin_0, hmin_3600, hmin_90⟩
  unfold hmin
  rw [h60]
  simp only [String.append_assoc]
  congr 1

/-- Witness for C2 at `seconds = 3599` (where the minute component is 60). -/
theorem C2_witness :
    hminM 3599 = 60
    ∧ hmin 3599 = toString (⌊(3599 : ℚ) / 3600⌋) ++ " h 60 min" :=
  ⟨hminM_3599, C2_hmin_format.2.2.1 3599 hminM_3599⟩

/-- C3: `fetch_routes` on a non-empty routes list returns index 0 as best
and index 1 as alternative when present; with exactly one route, both
components are that route. -/
theorem C3_fetch_routes_selection :
    (∀ (r0 r1 : Route) (rest : List Route),
        fetch_routes (some (r0 :: r1 :: rest)) = .ok (r0, r1))
    ∧ (∀ r0 : Route, fetch_routes (some [r0]) = .ok (r0, r0)) :=
  ⟨fun _ _ _ => rfl, fun _ => rfl⟩

/-- C4 counterexample: the routing GET issued by `fetch_routes` carries no
headers at all, so it does not include the client-identification header
`("User-Agent", "streamlit-carbon-demo")`; the claim that both outbound
calls include it is false. -/
theorem C4_counterexample :
    ¬ (("User-Agent", "streamlit-carbon-demo")
        ∈ (fetch_routes_request (fun _ => "0") (0, 0) (1, 1)).headers) := by
  decide

/-- C4 amended: the geocoding GET includes the client-identification
header (`headers=HEADERS`), while the routing GET sends no custom
headers. -/
theorem C4_amended_headers :
    ("User-Agent", "streamlit-carbon-demo") ∈ HEADERS
    ∧ (∀ (quote : String → String) (place : String),
        (geocode_request quote place).headers = HEADERS)
    ∧ (∀ (render : ℚ → String) (start stop : ℚ × ℚ),
        (fetch_routes_request render start stop).headers = []) :=
  ⟨by decide, fun _ _ => rfl, fun _ _ _ => rfl⟩

/-- C5: on an empty geocoding result list, `geocode` fails with the message
`"Place not found: " ++ place` — which contains the queried place string —
and returns no coordinate. -/
theorem C5_geocode_notfound :
    ∀ place : String,
      geocode place [] = .error ("Place not found: " ++ place)
      ∧ (∃ pre : String, "Place not found: " ++ place = pre ++ place)
      ∧ ∀ c : ℚ × ℚ, geocode place [] ≠ .ok c := by
  intro place
  refine ⟨rfl, ⟨"Place not found: ", rfl⟩, fun c h => ?_⟩
  simp [geocode] at h

/-- C6: for non-negative `meters`, `km` returns `round(meters/1000, 2)`:
the result times 100 is an integer, it is within 0.01 of `meters/1000`,
and it is non-negative. -/
theorem C6_km_round :
    ∀ m : ℚ, 0 ≤ m →
      (∃ z : ℤ, km m * 100 = (z : ℚ))
      ∧ |km m - m / 1000| ≤ 1/100
      ∧ 0 ≤ km m := by
  intro m hm
  have hx : m / 1000 * 100 = m / 10 := by ring
  refine ⟨⟨pyround (m / 1000 * 100), by unfold km; field_simp⟩, ?_, ?_⟩
  · have habs := abs_pyround_sub_le (m / 1000 * 100)
    unfold km
    rw [abs_le] at habs ⊢
    constructor <;> linarith [habs.1, habs.2]
  · unfold km
    have : (0 : ℚ) ≤ m / 1000 * 100 := by positivity
    have := pyround_nonneg this
    positivity

/-- Witness for C6 at `meters = 12000`. -/
theorem C6_witness :
    (0 : ℚ) ≤ 12000
    ∧ ((∃ z : ℤ, km 12000 * 100 = (z : ℚ))
        ∧ |km 12000 - 12000 / 1000| ≤ 1/100
        ∧ 0 ≤ km 12000) :=
  ⟨by norm_num, C6_km_round 12000 (by norm_num)⟩

/-- C7: the savings shown are old-minus-optimized for both CO₂ and cost,
and the end-to-end scenario (distances 12000 m / 15000 m, durations
1500 s / 1800 s) displays exactly the values the spec lists, including the
negative savings −450 g and −₹24. -/
theorem C7_savings_display :
    (∀ (s e : ℚ × ℚ) (best alt : Route),
        (mkDisplay s e best alt).co2Saved
            = (mkDisplay s e best alt).bestCo2 - (mkDisplay s e best alt).altCo2
        ∧ (mkDisplay s e best alt).costSaved
            = (mkDisplay s e best alt).bestCost - (mkDisplay s e best alt).altCost)
    ∧ mkDisplay (28.6, 77.05) (28.59, 77.04)
          ⟨12000, 1500, []⟩ ⟨15000, 1800, []⟩
        = { startCoord := (28.6, 77.05), endCoord := (28.59, 77.04)
            bestKm := 12, altKm := 15
            bestDur := "0 h 25 min", altDur := "0 h 30 min"
            bestCo2 := 1800, bestCost := 96, altCo2 := 2250, altCost := 120
            co2Saved := -450, costSaved := -24 } :=
  ⟨fun _ _ _ _ => ⟨rfl, rfl⟩, by
    simp only [mkDisplay, Display.mk.injEq, km_12000, km_15000,
      hmin_1500, hmin_1800, calc_metrics_12, calc_metrics_15]
    norm_num⟩

/-- C8: if any pipeline step fails — origin geocode (empty result list),
destination geocode (empty result list), or route fetch (missing or empty
routes) — the remaining steps are skipped and the UI renders exactly that
failure's message as an error banner; an error banner is never the success
view, so no map or metrics are shown. -/
theorem C8_pipeline_abort :
    ∀ (origin dest : String) (respD : List GeoResult)
      (routesField : Option (List Route)),
      renderUI (runPipeline origin dest [] respD routesField)
          = .errorBanner ("Place not found: " ++ origin)
      ∧ (∀ (g : GeoResult) (respO : List GeoResult),
          renderUI (runPipeline origin dest (g :: respO) [] routesField)
            = .errorBanner ("Place not found: " ++ dest))
      ∧ (∀ (g g2 : GeoResult) (respO respD2 : List GeoResult),
          renderUI (runPipeline origin dest (g :: respO) (g2 :: respD2) none)
            = .errorBanner "No routes found from OSRM"
          ∧ renderUI (runPipeline origin dest (g :: respO) (g2 :: respD2) (some []))
            = .errorBanner "No routes found from OSRM")
      ∧ (∀ (msg : String) (d : Display), UIOut.errorBanner msg ≠ .success d) :=
  fun _ _ _ _ =>
    ⟨rfl, fun _ _ => rfl, fun _ _ _ _ => ⟨rfl, rfl⟩,
      fun _ _ h => UIOut.noConfusion h⟩

/-- C9: `geocode` produces coordinates in (lat, lon) order, and
`fetch_routes` builds the routing URL path with longitude first, then
latitude, the two pairs separated by a semicolon. -/
theorem C9_routing_url :
    (∀ (place : String) (r : GeoResult) (rest : List GeoResult),
        geocode place (r :: rest) = .ok (r.lat, r.lon))
    ∧ (∀ (render : ℚ → String) (lat1 lon1 lat2 lon2 : ℚ),
        (fetch_routes_request render (lat1, lon1) (lat2, lon2)).url
          = "https://router.project-osrm.org/route/v1/driving/"
            ++ (render lon1 ++ "," ++ render lat1 ++ ";"
                ++ render lon2 ++ "," ++ render lat2)
            ++ "?alternatives=true&overview=full&geometries=geojson") :=
  ⟨fun _ _ _ => rfl, fun _ _ _ _ _ => rfl⟩

/-- C10: for non-negative `seconds`, the hour component of `hmin` is
non-negative and the minute component lies in [0, 60]; the bound 60 is
attained at `seconds = 3599`. -/
theorem C10_hmin_bounds :
    (∀ s : ℚ, 0 ≤ s → 0 ≤ hminH s ∧ 0 ≤ hminM s ∧ hminM s ≤ 60)
    ∧ hminM 3599 = 60 := by
  refine ⟨fun s hs => ?_, hminM_3599⟩
  have hfl : ((⌊s / 3600⌋ : ℤ) : ℚ) ≤ s / 3600 := Int.floor_le _
  have hfu : s / 3600 < (⌊s / 3600⌋ : ℚ) + 1 := Int.lt_floor_add_one _
  have hrem0 : (0 : ℚ) ≤ (s - 3600 * (⌊s / 3600⌋ : ℚ)) / 60 := by
    have : 3600 * ((⌊s / 3600⌋ : ℤ) : ℚ) ≤ s := by linarith
    linarith
  refine ⟨Int.floor_nonneg.mpr (by positivity), pyround_nonneg hrem0, ?_⟩
  have hremU : (s - 3600 * (⌊s / 3600⌋ : ℚ)) / 60 < 60 := by
    have : s < 3600 * ((⌊s / 3600⌋ : ℤ) : ℚ) + 3600 := by linarith
    linarith
  have hle := pyround_le ((s - 3600 * (⌊s / 3600⌋ : ℚ)) / 60)
  have : ((hminM s : ℤ) : ℚ) < 61 := by
    unfold hminM
    linarith
  exact_mod_cast Int.lt_add_one_iff.mp (by exact_mod_cast this)

/-- Witness for C10 at `seconds = 3599`. -/
theorem C10_witness :
    (0 : ℚ) ≤ 3599
    ∧ (0 ≤ hminH 3599 ∧ 0 ≤ hminM 3599 ∧ hminM 3599 ≤ 60) :=
  ⟨by norm_num, C10_hmin_bounds.1 3599 (by norm_num)⟩

end Logistics
